import Mathlib

/-!
Verification of `scripts/pubmatch.py` (publication_matching repository).

The file shallowly embeds the parts of the script that the specification
talks about:

* the session-establishment phase of `get_clean_xml` (lines 49-69):
  the two `esearch` calls, the count/idList consistency assertion and the
  `epost` call that yields the history-session token and query key;
* the batched-fetch phase of `get_clean_xml` (lines 72-93): the
  `range(0, count, batch_size)` window loop, the inner `while attempt < 3`
  retry loop with its `except HTTPError` handler, and the writes to the
  output stream.  The handler is embedded under real Python
  name-resolution semantics: evaluating an `except C` clause first
  resolves the name `C` against the local / module / builtin scopes, and
  an unresolvable name raises `NameError` while the original exception is
  being handled;
* the XML clean-up phase of `get_clean_xml` (lines 101-110): ten verbatim
  `readline()` copies, the artifact-line filter, and the final root
  closing tag;
* the record-extraction function `article_from_pubmed` (lines 133-160)
  together with the `Article` dataclass (lines 116-128), over a model of
  `xml.etree.ElementTree` elements (attributes, text, tail, children,
  `findall('.//Tag')` in document order, element truthiness).
-/

namespace Pubmatch

/-! ## Python module namespace of scripts/pubmatch.py -/

/-- Names bound at the top level of `scripts/pubmatch.py` by its import
statements (lines 1-16 of the source). -/
def importedNames : List String :=
  ["Path", "Entrez", "ET", "pickle", "Works", "Etiquette", "nltk",
   "sent_tokenize", "word_tokenize", "np", "re", "defaultdict",
   "dataclass", "field", "Dict", "List", "Any", "tempfile", "os"]

/-- Names defined at the top level of `scripts/pubmatch.py` (its function
and class definitions). -/
def moduleDefNames : List String :=
  ["get_clean_xml", "Article", "article_from_pubmed", "create_corpus",
   "get_pubmed_summary"]

/-- The Python built-in names that could be relevant while executing the
script.  `HTTPError` is not a builtin (it lives in `urllib.error`, or in
third-party HTTP libraries) and `time` is a standard-library module that is
only bound by an `import time`; neither appears here. -/
def pythonBuiltins : List String :=
  ["abs", "all", "any", "bool", "bytes", "dict", "enumerate", "float",
   "format", "id", "int", "isinstance", "len", "list", "map", "max", "min",
   "object", "open", "ord", "print", "range", "repr", "set", "sorted",
   "str", "sum", "tuple", "type", "zip", "Exception", "BaseException",
   "ValueError", "TypeError", "KeyError", "IndexError", "AttributeError",
   "NameError", "AssertionError", "RuntimeError", "StopIteration",
   "OSError"]

/-- Every name resolvable from inside `get_clean_xml` without a local
assignment: module imports, module-level definitions and builtins.
`HTTPError` and `time` are never assigned inside `get_clean_xml`, so a use
of either inside the function resolves against exactly this list. -/
def globalNames : List String := importedNames ++ moduleDefNames ++ pythonBuiltins

/-! ## Errors and fetch outcomes -/

/-- The exception raised by one `Entrez.efetch` call, as far as the
`except HTTPError` handler on line 84 could distinguish it: an HTTP error
carrying a status code, or any other exception. -/
inductive FetchExc where
  | httpError (code : Nat)
  | otherExc
deriving DecidableEq

/-- Outcome of one `Entrez.efetch` call: a handle whose `read()` yields
`data`, or a raised exception. -/
inductive FetchResult where
  | ok (data : String)
  | exc (e : FetchExc)

/-- Python-level failure modes that the embedded fragments of
`get_clean_xml` can produce. -/
inductive PyErr where
  | nameError (n : String)
  | unboundLocal (n : String)
  | keyError (k : String)
  | assertionError
  | raised (e : FetchExc)
deriving DecidableEq

/-- Result of running a Python fragment: a value or a propagating error. -/
inductive PyResult (α : Type) where
  | ok (v : α)
  | err (e : PyErr)
deriving DecidableEq

/-! ## The retry loop of get_clean_xml (lines 76-90)

```
attempt = 0
while attempt < 3:
    attempt += 1
    try:
        fetch_handle = Entrez.efetch(...)
    except HTTPError as err:
        if 500 <= err.code <= 599:
            print(...); print(...)
            time.sleep(15)
        else:
            raise
```

There is no `break` after a successful `efetch`, so the loop body runs
three times unless an exception escapes.  When `efetch` raises, Python
evaluates the handler's class expression `HTTPError`; if that name is not
bound in any enclosing scope the evaluation itself raises `NameError`
(propagating instead of the original exception).  Reaching `time.sleep`
would likewise first resolve the name `time`. -/

/-- Result of the `while attempt < 3` loop for one window: the final
binding of `fetch_handle` (`none` when still unbound), the list of attempt
numbers at which `efetch` was actually called, and how many times
`time.sleep(15)` executed.  `env` is the set of resolvable names, `fetch`
maps an attempt number to that call's outcome. -/
structure LoopOut where
  result : PyResult (Option String)
  calls : List Nat
  sleeps : Nat

/-- The retry loop itself, parameterised by remaining iterations (`fuel`,
initially 3, mirroring `while attempt < 3`) and the current attempt
number. -/
def fetchTries (env : List String) (fetch : Nat → FetchResult) :
    Nat → Nat → Option String → LoopOut
  | 0, _, h => ⟨.ok h, [], 0⟩
  | fuel + 1, attempt, h =>
    match fetch attempt with
    | .ok d =>
        let r := fetchTries env fetch fuel (attempt + 1) (some d)
        ⟨r.result, attempt :: r.calls, r.sleeps⟩
    | .exc e =>
        if env.contains "HTTPError" then
          match e with
          | .httpError code =>
              if 500 ≤ code ∧ code ≤ 599 then
                if env.contains "time" then
                  let r := fetchTries env fetch fuel (attempt + 1) h
                  ⟨r.result, attempt :: r.calls, r.sleeps + 1⟩
                else ⟨.err (.nameError "time"), [attempt], 0⟩
              else ⟨.err (.raised (.httpError code)), [attempt], 0⟩
          | .otherExc => ⟨.err (.raised .otherExc), [attempt], 0⟩
        else ⟨.err (.nameError "HTTPError"), [attempt], 0⟩

/-! ## The window loop of get_clean_xml (lines 72-93) -/

/-- Python `range(0, stop, step)` (line 73), for positive `step`; the fuel
`stop` bounds the number of produced elements. -/
def pyRangeGo (stop step : Nat) : Nat → Nat → List Nat
  | 0, _ => []
  | fuel + 1, cur => if cur < stop then cur :: pyRangeGo stop step fuel (cur + step) else []

/-- Python `range(0, stop, step)` for positive `step`. -/
def pyRange (stop step : Nat) : List Nat := pyRangeGo stop step stop 0

/-- The half-open windows `(start, end)` with `end = min(count, start + batch_size)`
exactly as computed on lines 73-74. -/
def windowsOf (count bsize : Nat) : List (Nat × Nat) :=
  (pyRange count bsize).map (fun s => (s, min count (s + bsize)))

/-- Outcome of the whole batched-fetch loop: the propagating error (if any),
the list of strings written to the output stream, in order (the written
file content is their concatenation), the trace of `efetch` calls as
(window start, attempt number) pairs, and the number of sleeps. -/
structure RunOut where
  err : Option PyErr
  writes : List String
  calls : List (Nat × Nat)
  sleeps : Nat

/-- The `for start in range(0, count, batch_size)` loop (lines 73-93):
for each window start, run the retry loop, then `data = fetch_handle.read()`
(an unbound `fetch_handle` raises `UnboundLocalError`) and
`out_handle.write(data)`.  `fetch_handle` is a function local, so its
binding persists from one window to the next (`h0`).  An escaping error
stops the loop; the writes already made stay in the file. -/
def batchLoop (env : List String) (fetch : Nat → Nat → FetchResult) :
    List Nat → Option String → RunOut
  | [], _ => ⟨none, [], [], 0⟩
  | start :: rest, h0 =>
    let r := fetchTries env (fetch start) 3 1 h0
    match r.result with
    | .err e => ⟨some e, [], r.calls.map (fun a => (start, a)), r.sleeps⟩
    | .ok none =>
        ⟨some (.unboundLocal "fetch_handle"), [], r.calls.map (fun a => (start, a)), r.sleeps⟩
    | .ok (some d) =>
        let rr := batchLoop env fetch rest (some d)
        ⟨rr.err, d :: rr.writes, r.calls.map (fun a => (start, a)) ++ rr.calls,
         r.sleeps + rr.sleeps⟩

/-- The batched-fetch phase of `get_clean_xml` over `count` records with
window size `bsize`: the window loop run over `range(0, count, batch_size)`
with `fetch_handle` initially unbound. -/
def batchPhase (env : List String) (fetch : Nat → Nat → FetchResult)
    (count bsize : Nat) : RunOut :=
  batchLoop env fetch (pyRange count bsize) none

/-! ## The session-establishment phase of get_clean_xml (lines 49-69) -/

/-- One parsed Entrez response, as a record with optional keys: reading an
absent key raises `KeyError`. -/
structure EntrezResp where
  count : Option Nat := none
  webenv : Option String := none
  querykey : Option String := none
  idList : Option (List String) := none

/-- Lines 49-69 of `get_clean_xml`: read `Count`, `WebEnv`, `QueryKey`
from the first search, read `IdList` from the second search,
`assert count == len(id_list)`, then read `WebEnv` and `QueryKey` from the
`epost` response.  The returned triple is what the fetch loop uses. -/
def sessionPhase (r1 r2 p : EntrezResp) : PyResult (Nat × String × String) :=
  match r1.count with
  | none => .err (.keyError "Count")
  | some count =>
    match r1.webenv with
    | none => .err (.keyError "WebEnv")
    | some _ =>
      match r1.querykey with
      | none => .err (.keyError "QueryKey")
      | some _ =>
        match r2.idList with
        | none => .err (.keyError "IdList")
        | some idl =>
          if count = idl.length then
            match p.webenv with
            | none => .err (.keyError "WebEnv")
            | some we =>
              match p.querykey with
              | none => .err (.keyError "QueryKey")
              | some qk => .ok (count, we, qk)
          else .err .assertionError

/-! ## The XML clean-up phase of get_clean_xml (lines 101-110)

```
problems = ('<?xml version', "<!DOCTYPE PubmedArticleSet PUBLIC",
            "<PubmedArticleSet", "</PubmedArticleSet")
with open(file_batched, ...) as f:
    with file_cleaned.open("w", ...) as out_file:
        for i in range(10):
            out_file.write(f.readline())
        for line in f:
            if not line.startswith(problems):
                out_file.write(line)
        out_file.write("</PubmedArticleSet>\n")
```

Streams are modelled as `List Char`; `splitLines` mirrors Python text-mode
line iteration (chunks are split after every newline character, each chunk
keeps its trailing newline, the final chunk may lack one, and `readline()`
at end of file yields the empty string). -/

/-- Splitter worker: `acc` is the reversed prefix of the current line. -/
def splitLinesGo : List Char → List Char → List (List Char)
  | [], acc => if acc.isEmpty then [] else [acc.reverse]
  | c :: cs, acc =>
      if c = '\n' then (c :: acc).reverse :: splitLinesGo cs []
      else splitLinesGo cs (c :: acc)

/-- The lines of a character stream, Python `readline` style. -/
def splitLines (s : List Char) : List (List Char) := splitLinesGo s []

/-- The four artifact line starts of line 102. -/
def problems : List (List Char) :=
  ["<?xml version".toList, "<!DOCTYPE PubmedArticleSet PUBLIC".toList,
   "<PubmedArticleSet".toList, "</PubmedArticleSet".toList]

/-- Python `line.startswith(problems)` for the tuple on line 102. -/
def startsProblem (l : List Char) : Bool :=
  problems.any (fun p => p.isPrefixOf l)

/-- The closing root tag written on line 110. -/
def closeTag : List Char := "</PubmedArticleSet>\n".toList

/-- The second loop plus the final write (lines 107-110): copy every line
that does not start with an artifact, then write the closing tag. -/
def copyBody : List (List Char) → List Char
  | [] => closeTag
  | l :: ls => (if startsProblem l then [] else l) ++ copyBody ls

/-- The first loop (lines 105-106): write the next `n` `readline()` results
verbatim (an exhausted stream contributes empty strings), returning the
written text and the lines not yet consumed. -/
def copyHead : Nat → List (List Char) → List Char × List (List Char)
  | 0, ls => ([], ls)
  | _ + 1, [] => ([], [])
  | n + 1, l :: ls =>
      let r := copyHead n ls
      (l ++ r.1, r.2)

/-- The whole clean-up transform of lines 101-110 on a raw stream. -/
def normalizeRaw (s : List Char) : List Char :=
  let r := copyHead 10 (splitLines s)
  r.1 ++ copyBody r.2

/-! ## The ElementTree model and article_from_pubmed (lines 116-160)

`xml.etree.ElementTree` elements are modelled with their tag, attribute
list, text, tail and children.  A mutual inductive (element / forest)
keeps all recursions structural. -/

mutual
/-- An ElementTree element: tag, attributes in document order, `.text`,
`.tail` (both `None`-able) and the child elements. -/
inductive XElem where
  | node (tag : String) (attrib : List (String × String)) (text : Option String)
         (tailStr : Option String) (children : XForest)
/-- A list of sibling elements. -/
inductive XForest where
  | nil
  | cons (hd : XElem) (tl : XForest)
end

def XElem.tag : XElem → String
  | .node t _ _ _ _ => t

def XElem.attrib : XElem → List (String × String)
  | .node _ a _ _ _ => a

def XElem.text : XElem → Option String
  | .node _ _ tx _ _ => tx

def XElem.tailStr : XElem → Option String
  | .node _ _ _ tl _ => tl

def XForest.toList : XForest → List XElem
  | .nil => []
  | .cons c cs => c :: XForest.toList cs

def XForest.ofList : List XElem → XForest
  | [] => .nil
  | c :: cs => .cons c (XForest.ofList cs)

/-- The child elements of an element, as a list. -/
def XElem.childList : XElem → List XElem
  | .node _ _ _ _ cs => cs.toList

/-- Convenience constructor taking the children as a list. -/
def xnode (tag : String) (attrib : List (String × String)) (text : Option String)
    (tailStr : Option String) (children : List XElem) : XElem :=
  .node tag attrib text tailStr (XForest.ofList children)

mutual
/-- All proper descendants of an element, in document (preorder) order;
this is the node set that an ElementTree `.//Tag` path walks. -/
def descendants : XElem → List XElem
  | .node _ _ _ _ cs => descForest cs
/-- All elements of a forest and their descendants, in document order. -/
def descForest : XForest → List XElem
  | .nil => []
  | .cons c cs => c :: (descendants c ++ descForest cs)
end

mutual
/-- Model of `Element.itertext()` joined: the element's text followed, per child, by
the child's own inner text and the child's tail. -/
def innerText : XElem → String
  | .node _ _ tx _ cs => tx.getD "" ++ innerTextF cs
/-- Inner text of a forest. -/
def innerTextF : XForest → String
  | .nil => ""
  | .cons c cs => innerText c ++ (c.tailStr.getD "") ++ innerTextF cs
end

/-- Model of `ET.tostring(e, method='text')` decoded: all inner text, then the
element's own tail. -/
def tostringText (e : XElem) : String := innerText e ++ e.tailStr.getD ""

/-- Model of `root.findall('.//Tag')`: every descendant with the given tag, in
document order. -/
def findallDesc (t : String) (e : XElem) : List XElem :=
  (descendants e).filter (fun c => c.tag == t)

/-- Model of `root.find('.//Tag')`: the first such descendant, if any. -/
def findDesc (t : String) (e : XElem) : Option XElem :=
  (findallDesc t e).head?

/-- Model of `root.findtext('.//Tag')`: text of the first match (an element with
`text=None` yields the empty string), `None` when there is no match. -/
def findtextDesc (t : String) (e : XElem) : Option String :=
  match findDesc t e with
  | none => none
  | some el => some (el.text.getD "")

/-- Children of `e` with the given tag (one `/Tag` path step). -/
def childrenTag (t : String) (e : XElem) : List XElem :=
  e.childList.filter (fun c => c.tag == t)

/-- Model of `root.findall('.//T1/T2/T3')`: the `.//` step walks all descendants,
the two following steps take children, preserving the walk order. -/
def findallPath3 (t1 t2 t3 : String) (e : XElem) : List XElem :=
  ((((findallDesc t1 e).map (childrenTag t2)).flatten).map (childrenTag t3)).flatten

/-- Model of `root.findtext('.//T1/T2/T3')`. -/
def findtextPath3 (t1 t2 t3 : String) (e : XElem) : Option String :=
  match (findallPath3 t1 t2 t3 e).head? with
  | none => none
  | some el => some (el.text.getD "")

/-- The `Article` dataclass (lines 116-128), with the values the fields
actually hold at run time after `article_from_pubmed` built the keyword
dictionary.  The source declares `year: int = field(default = 0)`, but the
extractor always overrides that default with the result of
`findtext('.//JournalIssue/PubDate/Year')`, which is `None` or a string;
the field is therefore modelled as an optional string. -/
structure Article where
  my_id : Option String := none
  doi : Option String := none
  pmid : Option String := none
  authors : List (Option String) := []
  title : Option String := none
  abstract : Option String := none
  content : Option String := none
  journal : Option String := none
  year : Option String := none
  references : List Unit := []
deriving DecidableEq

/-- Model of `'s' in Id.attrib.values()` (lines 139 and 141). -/
def schemeIn (s : String) (e : XElem) : Bool :=
  (e.attrib.map Prod.snd).contains s

/-- The identifier loop of lines 137-142: each `ArticleId` element may
overwrite the `doi` and/or `pmid` dictionary entries with its `.text`
(itself possibly `None`).  The outer `Option` records whether the
dictionary key was ever written, the inner one is the stored text. -/
def idFold : List XElem → Option (Option String) → Option (Option String) →
    Option (Option String) × Option (Option String)
  | [], d, p => (d, p)
  | i :: rest, d, p =>
      idFold rest (if schemeIn "doi" i then some i.text else d)
        (if schemeIn "pubmed" i then some i.text else p)

/-- The function `article_from_pubmed` (lines 133-160), field for field. -/
def article_from_pubmed (root : XElem) : Article :=
  let ids := findallDesc "ArticleId" root
  let dp := idFold ids none none
  let doiK := dp.1
  let pmidK := dp.2
  let my_idK : Option String :=
    match doiK with
    | some t => t
    | none =>
      match pmidK with
      | some t => t
      | none => none
  let authors := (findallPath3 "AuthorList" "Author" "LastName" root).map XElem.text
  let abstractV : Option String :=
    match findDesc "Abstract" root with
    | none => none
    | some el => if el.childList.isEmpty then none else some (tostringText el)
  { my_id := my_idK
    doi := doiK.join
    pmid := pmidK.join
    authors := authors
    title := findtextDesc "ArticleTitle" root
    abstract := abstractV
    journal := findtextDesc "ISOAbbreviation" root
    year := findtextPath3 "JournalIssue" "PubDate" "Year" root }

/-! ## Concrete fixtures used by the claim theorems -/

/-- A PubmedArticle with a DOI-scheme `ArticleId` that has no text content
and a pubmed-scheme `ArticleId` with text `999`. -/
def cexArticle : XElem :=
  xnode "PubmedArticle" [] none none
    [xnode "ArticleId" [("IdType", "doi")] none none [],
     xnode "ArticleId" [("IdType", "pubmed")] (some "999") none []]

/-- A PubmedArticle with both identifier schemes carrying text. -/
def bothIdsArticle : XElem :=
  xnode "PubmedArticle" [] none none
    [xnode "ArticleId" [("IdType", "doi")] (some "10.1/x") none [],
     xnode "ArticleId" [("IdType", "pubmed")] (some "999") none []]

/-- A PubmedArticle with a title but no publication-year sub-element. -/
def noYearArticle : XElem :=
  xnode "PubmedArticle" [] none none
    [xnode "ArticleTitle" [] (some "T") none []]

/-- A PubmedArticle whose `JournalIssue/PubDate/Year` element holds `2020`. -/
def yearArticle : XElem :=
  xnode "PubmedArticle" [] none none
    [xnode "Journal" [] none none
      [xnode "JournalIssue" [] none none
        [xnode "PubDate" [] none none
          [xnode "Year" [] (some "2020") none []]]]]

/-- A PubmedArticle whose `Abstract` element carries text but has no child
elements. -/
def flatAbstractArticle : XElem :=
  xnode "PubmedArticle" [] none none
    [xnode "Abstract" [] (some "plain abstract text") none []]

/-- A PubmedArticle whose `Abstract` element has a child element. -/
def nestedAbstractArticle : XElem :=
  xnode "PubmedArticle" [] none none
    [xnode "Abstract" [] (some "lead ") none
      [xnode "AbstractText" [] (some "body") (some " tail") []]]

/-- The value of the `doi` dictionary key after the identifier loop:
`none` when no doi-scheme `ArticleId` was seen, otherwise the text of the
last one seen (which may itself be absent). -/
def doiKey (root : XElem) : Option (Option String) :=
  (idFold (findallDesc "ArticleId" root) none none).1

/-- The value of the `pmid` dictionary key after the identifier loop. -/
def pmidKey (root : XElem) : Option (Option String) :=
  (idFold (findallDesc "ArticleId" root) none none).2

/-! ## Helper lemmas -/

/-- The retry loop under the real module namespace: no sleep ever runs and
the only error it can produce is `NameError: name 'HTTPError' is not
defined`; moreover any raised exception immediately becomes that
`NameError`. -/
theorem fetchTries_globalNames (fetch : Nat → FetchResult) :
    ∀ (fuel attempt : Nat) (h : Option String),
      (fetchTries globalNames fetch fuel attempt h).sleeps = 0 ∧
      ((∃ v, (fetchTries globalNames fetch fuel attempt h).result = .ok v) ∨
        (fetchTries globalNames fetch fuel attempt h).result = .err (.nameError "HTTPError")) ∧
      (∀ e, fetch attempt = .exc e → 1 ≤ fuel →
        (fetchTries globalNames fetch fuel attempt h).result = .err (.nameError "HTTPError"))
  | 0, attempt, h => by
      refine ⟨rfl, Or.inl ⟨h, rfl⟩, ?_⟩
      intro e _ hfuel
      exact absurd hfuel (by omega)
  | fuel + 1, attempt, h => by
      have hH : ¬ ("HTTPError" ∈ globalNames) := by decide
      cases hf : fetch attempt with
      | ok d =>
          have ih := fetchTries_globalNames fetch fuel (attempt + 1) (some d)
          refine ⟨?_, ?_, ?_⟩
          · simpa [fetchTries, hf] using ih.1
          · simpa [fetchTries, hf] using ih.2.1
          · intro e he hfl
            cases he
      | exc e =>
          refine ⟨?_, ?_, ?_⟩
          · simp [fetchTries, hf, hH]
          · right
            simp [fetchTries, hf, hH]
          · intro e' _ _
            simp [fetchTries, hf, hH]

/-- A retry loop whose three fetches all succeed with `d` binds the handle
to `d`, issues three calls and never sleeps (there is no `break`). -/
theorem fetchTries_all_ok (env : List String) (d : String) (h : Option String) :
    fetchTries env (fun _ => .ok d) 3 1 h = ⟨.ok (some d), [1, 2, 3], 0⟩ := rfl

/-- The window loop when every fetch succeeds: no error, one write of the
window's response per window in window order, and three fetch calls per
window. -/
theorem batchLoop_all_ok (env : List String) (data : Nat → String) :
    ∀ (starts : List Nat) (h0 : Option String),
      batchLoop env (fun s _ => .ok (data s)) starts h0 =
        ⟨none, starts.map data, (starts.map (fun s => [(s, 1), (s, 2), (s, 3)])).flatten, 0⟩
  | [], _ => rfl
  | start :: rest, h0 => by
      have hw : fetchTries env (fun _ => FetchResult.ok (data start)) 3 1 h0 =
          ⟨.ok (some (data start)), [1, 2, 3], 0⟩ := rfl
      have ih := batchLoop_all_ok env data rest (some (data start))
      simp [batchLoop, hw, ih]

/-- The first `readline` loop writes the first `n` lines verbatim and
leaves the rest of the stream. -/
theorem copyHead_eq (n : Nat) (ls : List (List Char)) :
    copyHead n ls = ((ls.take n).flatten, ls.drop n) := by
  induction n generalizing ls with
  | zero => simp [copyHead]
  | succ n ih =>
      cases ls with
      | nil => simp [copyHead]
      | cons l ls => simp [copyHead, ih]

/-- The second loop keeps exactly the non-artifact lines and then writes
the closing root tag. -/
theorem copyBody_eq (ls : List (List Char)) :
    copyBody ls = (ls.filter (fun l => !startsProblem l)).flatten ++ closeTag := by
  induction ls with
  | nil => simp [copyBody]
  | cons l ls ih =>
      cases h : startsProblem l <;>
        simp [copyBody, h, ih, List.filter_cons]

/-- Declarative form of the clean-up transform: first ten lines verbatim,
remaining lines kept iff they do not start with an artifact, one closing
root tag appended. -/
theorem normalizeRaw_eq (s : List Char) :
    normalizeRaw s = ((splitLines s).take 10).flatten ++
      (((splitLines s).drop 10).filter (fun l => !startsProblem l)).flatten ++ closeTag := by
  simp [normalizeRaw, copyHead_eq, copyBody_eq]

/-! ## Claim theorems -/

/-- C1 (code_bug): a window whose fetches all fail with a 5xx error does
not make `get_clean_xml` fail with a `FetchExhaustedError` for that
window.  With window 0 succeeding (response `"A"`) and window 3 failing
with HTTP 503 on every attempt, the run aborts during window 3's **first**
attempt with `NameError` (the handler references the unimported name
`HTTPError`), the already-written prefix `["A"]` is left in place, and no
name `FetchExhaustedError` even exists in the module. -/
theorem C1_retry_exhaustion_is_name_error :
    (batchPhase globalNames (fun s _ => if s = 0 then .ok "A" else .exc (.httpError 503)) 6 3).err
      = some (.nameError "HTTPError") ∧
    (batchPhase globalNames (fun s _ => if s = 0 then .ok "A" else .exc (.httpError 503)) 6 3).writes
      = ["A"] ∧
    (batchPhase globalNames (fun s _ => if s = 0 then .ok "A" else .exc (.httpError 503)) 6 3).calls
      = [(0, 1), (0, 2), (0, 3), (3, 1)] ∧
    (globalNames.contains "FetchExhaustedError") = false := by
  decide

/-- C2 (code_bug): the retry policy the claim describes is not what the
loop does.  A window whose first fetch succeeds still issues all three
`efetch` calls (there is no `break`, so success does not end the
attempts), and a transient HTTP 500 failure is not retried at all: the
first failing attempt aborts with `NameError` (unimported `HTTPError`),
with no further calls and no 15-second sleep. -/
theorem C2_retry_policy_not_implemented :
    (fetchTries globalNames (fun _ => .ok "D") 3 1 none).calls = [1, 2, 3] ∧
    (fetchTries globalNames (fun _ => .ok "D") 3 1 none).result = .ok (some "D") ∧
    (fetchTries globalNames (fun a => if a = 1 then .exc (.httpError 500) else .ok "D") 3 1 none).result
      = .err (.nameError "HTTPError") ∧
    (fetchTries globalNames (fun a => if a = 1 then .exc (.httpError 500) else .ok "D") 3 1 none).calls
      = [1] ∧
    (fetchTries globalNames (fun a => if a = 1 then .exc (.httpError 500) else .ok "D") 3 1 none).sleeps
      = 0 := by
  decide

/-- C4 (code_bug): `fields['year']` is unconditionally assigned the result
of `findtext('.//JournalIssue/PubDate/Year')`, so the dataclass default
`year: int = 0` never applies: with the sub-element absent the article's
`year` is `None` (not the integer sentinel `0`), and with the sub-element
present it is the raw string (here `"2020"`), not an integer. -/
theorem C4_year_sentinel_code_bug :
    (article_from_pubmed noYearArticle).year = none ∧
    (article_from_pubmed yearArticle).year = some "2020" := by
  decide

/-- C6 (confirmed): the clean-up loop copies the first ten lines of the
raw stream verbatim, keeps each remaining line exactly when it does not
start with one of the four artifact line starts (dropping it otherwise),
preserves the order of the kept lines, and appends exactly one closing
root-element tag at the end. -/
theorem C6_normalizer_line_filter (s : List Char) :
    normalizeRaw s = ((splitLines s).take 10).flatten ++
      (((splitLines s).drop 10).filter (fun l => !startsProblem l)).flatten ++ closeTag :=
  normalizeRaw_eq s

/-- C9 (confirmed): neither `HTTPError` nor `time` is bound anywhere in
the module's namespace, so whenever an `efetch` attempt raises, evaluating
the `except HTTPError` clause raises `NameError`; consequently the
backoff (`time.sleep(15)`) branch never runs and neither the retry nor the
explicit re-raise of a non-5xx error is reachable — the loop's only
possible error outcome is that `NameError`. -/
theorem C9_unreachable_retry_branch :
    (globalNames.contains "HTTPError") = false ∧
    (globalNames.contains "time") = false ∧
    ∀ (fetch : Nat → FetchResult) (fuel attempt : Nat) (h : Option String),
      (fetchTries globalNames fetch fuel attempt h).sleeps = 0 ∧
      ((∃ v, (fetchTries globalNames fetch fuel attempt h).result = .ok v) ∨
        (fetchTries globalNames fetch fuel attempt h).result = .err (.nameError "HTTPError")) ∧
      (∀ e, fetch attempt = .exc e → 1 ≤ fuel →
        (fetchTries globalNames fetch fuel attempt h).result = .err (.nameError "HTTPError")) :=
  ⟨by decide, by decide, fun fetch fuel attempt h => fetchTries_globalNames fetch fuel attempt h⟩

/-- Witness for C9 at a concrete failing fetch: a non-HTTP exception on
the first attempt yields the `NameError` outcome. -/
theorem C9_unreachable_retry_branch_witness :
    (fetchTries globalNames (fun _ => .exc .otherExc) 3 1 none).result
      = .err (.nameError "HTTPError") :=
  (C9_unreachable_retry_branch.2.2 (fun _ => .exc .otherExc) 3 1 none).2.2 .otherExc rfl
    (by decide)

/-- C3 (counterexample): an article whose doi-scheme `ArticleId` element
exists but has no text, next to a pubmed-scheme `ArticleId` with text
`999`.  The loop stores `None` under the `doi` key, so `my_id` is set to
that `None`: `pmid` is set while `my_id` is absent, refuting the claimed
"`my_id` is set iff at least one of doi/pmid is set" (the claim would
require `my_id = "999"` here). -/
theorem C3_counterexample :
    (article_from_pubmed cexArticle).pmid = some "999" ∧
    (article_from_pubmed cexArticle).my_id = none ∧
    (article_from_pubmed cexArticle).doi = none := by
  decide

/-- C3 (amended): precedence is decided by which dictionary keys the
identifier loop wrote, not by which values are non-absent: `my_id` equals
the `doi` entry (the text of the last doi-scheme `ArticleId`, possibly
absent) when any doi-scheme element exists, else the `pmid` entry when any
pubmed-scheme element exists, else it is absent.  Consequently `my_id` is
set iff `doi` is set, or no doi-scheme element exists and `pmid` is set;
and when `doi` is set, `my_id` equals `doi`. -/
theorem C3_id_precedence_amended (root : XElem) :
    (article_from_pubmed root).my_id = (doiKey root).getD ((pmidKey root).getD none) ∧
    (article_from_pubmed root).doi = (doiKey root).join ∧
    (article_from_pubmed root).pmid = (pmidKey root).join ∧
    ((article_from_pubmed root).doi.isSome →
      (article_from_pubmed root).my_id = (article_from_pubmed root).doi) ∧
    ((article_from_pubmed root).my_id.isSome ↔
      ((article_from_pubmed root).doi.isSome ∨
        (doiKey root = none ∧ (article_from_pubmed root).pmid.isSome))) := by
  have hm : (article_from_pubmed root).my_id =
      (doiKey root).getD ((pmidKey root).getD none) := by
    show (match doiKey root with
          | some t => t
          | none =>
            match pmidKey root with
            | some t => t
            | none => none) = (doiKey root).getD ((pmidKey root).getD none)
    rcases doiKey root with _ | t
    · rcases pmidKey root with _ | u <;> rfl
    · rfl
  have hd : (article_from_pubmed root).doi = (doiKey root).join := rfl
  have hp : (article_from_pubmed root).pmid = (pmidKey root).join := rfl
  refine ⟨hm, hd, hp, ?_, ?_⟩
  · intro hS
    rw [hd] at hS ⊢
    rw [hm]
    rcases hD : doiKey root with _ | t
    · rw [hD] at hS
      simp at hS
    · simp
  · rw [hm, hd, hp]
    rcases doiKey root with _ | t
    · rcases pmidKey root with _ | u
      · simp
      · cases u <;> simp
    · cases t <;> simp

/-- Witness for the amended C3: with both identifiers present and textual
(doi `10.1/x`, pmid `999`), `my_id` equals `doi`. -/
theorem C3_id_precedence_amended_witness :
    (article_from_pubmed bothIdsArticle).my_id = (article_from_pubmed bothIdsArticle).doi :=
  (C3_id_precedence_amended bothIdsArticle).2.2.2.1 (by decide)

/-- C5 (counterexample): a search reporting zero results with a matching
empty identifier list and tokens present passes session establishment —
`sessionPhase` succeeds (`0 == len([])` satisfies the assertion) and the
run proceeds to the (empty) fetch loop, instead of failing as the claim
requires. -/
theorem C5_counterexample :
    sessionPhase ⟨some 0, some "W", some "Q", none⟩ ⟨none, none, none, some []⟩
      ⟨none, some "W2", some "Q2", none⟩ = .ok (0, "W2", "Q2") := by
  decide

/-- C5 (amended): session establishment does fail before any fetching when
a session token is missing (a `KeyError` at the `record["WebEnv"]` /
`search_results["WebEnv"]` reads) and when the count-only count disagrees
with the identifier-list length (`assert count == len(id_list)` raises
`AssertionError`, which is fatal and not retried); but a zero-result
search is not rejected. -/
theorem C5_session_failures_amended (r1 r2 p : EntrezResp) :
    (∀ c, r1.count = some c → r1.webenv = none →
      sessionPhase r1 r2 p = .err (.keyError "WebEnv")) ∧
    (∀ c idl, r1.count = some c → r1.webenv.isSome → r1.querykey.isSome →
      r2.idList = some idl → c ≠ idl.length →
      sessionPhase r1 r2 p = .err .assertionError) ∧
    (∀ c idl, r1.count = some c → r1.webenv.isSome → r1.querykey.isSome →
      r2.idList = some idl → c = idl.length → p.webenv = none →
      sessionPhase r1 r2 p = .err (.keyError "WebEnv")) := by
  refine ⟨?_, ?_, ?_⟩
  · intro c h1 h2
    simp [sessionPhase, h1, h2]
  · intro c idl h1 h2 h3 h4 h5
    obtain ⟨w, hw⟩ := Option.isSome_iff_exists.mp h2
    obtain ⟨q, hq⟩ := Option.isSome_iff_exists.mp h3
    simp [sessionPhase, h1, hw, hq, h4, h5]
  · intro c idl h1 h2 h3 h4 h5 h6
    obtain ⟨w, hw⟩ := Option.isSome_iff_exists.mp h2
    obtain ⟨q, hq⟩ := Option.isSome_iff_exists.mp h3
    simp [sessionPhase, h1, hw, hq, h4, h5, h6]

/-- Witness for the amended C5: a count mismatch (2 vs 1 id) raises the
assertion error, and a missing epost session token raises the key error. -/
theorem C5_session_failures_amended_witness :
    sessionPhase ⟨some 2, some "W", some "Q", none⟩ ⟨none, none, none, some ["1"]⟩
      ⟨none, none, none, none⟩ = .err .assertionError ∧
    sessionPhase ⟨some 1, some "W", some "Q", none⟩ ⟨none, none, none, some ["1"]⟩
      ⟨none, none, none, none⟩ = .err (.keyError "WebEnv") :=
  ⟨(C5_session_failures_amended ⟨some 2, some "W", some "Q", none⟩
      ⟨none, none, none, some ["1"]⟩ ⟨none, none, none, none⟩).2.1 2 ["1"]
      rfl (by decide) (by decide) rfl (by decide),
   (C5_session_failures_amended ⟨some 1, some "W", some "Q", none⟩
      ⟨none, none, none, some ["1"]⟩ ⟨none, none, none, none⟩).2.2 1 ["1"]
      rfl (by decide) (by decide) rfl rfl rfl⟩

/-- C10 (confirmed): `find('.//Abstract')` is tested for truthiness, and
an element is truthy exactly when it has child elements; so `abstract` is
non-absent exactly when an `Abstract` element is found **and** has at
least one child.  In particular an `Abstract` that carries only text is
dropped (`abstract = None`), while one with a child element is flattened
to its full text content. -/
theorem C10_abstract_truthiness :
    (∀ root : XElem, (article_from_pubmed root).abstract.isSome =
      (match findDesc "Abstract" root with
       | none => false
       | some el => !el.childList.isEmpty)) ∧
    (article_from_pubmed flatAbstractArticle).abstract = none ∧
    (article_from_pubmed nestedAbstractArticle).abstract = some "lead body tail" := by
  refine ⟨fun root => ?_, by decide, by decide⟩
  rcases h : findDesc "Abstract" root with _ | el
  · simp [article_from_pubmed, h]
  · cases hc : el.childList.isEmpty <;> simp [article_from_pubmed, h, hc]

/-- Splitting a contiguous range of naturals. -/
theorem range'_split (s m n : Nat) :
    List.range' s (m + n) = List.range' s m ++ List.range' (s + m) n := by
  have h := List.range'_append s m n 1
  rw [Nat.one_mul] at h
  rw [Nat.add_comm m n]
  exact h.symm

/-- The windows walked by `range(0, count, batch_size)` cover `[cur, stop)`
contiguously: mapping each start to its clipped interval and concatenating
yields exactly the interval from `cur` to `stop`. -/
theorem pyRangeGo_partition (stop step : Nat) (hs : 1 ≤ step) :
    ∀ (fuel cur : Nat), stop - cur ≤ fuel →
      ((pyRangeGo stop step fuel cur).map
        (fun s => List.range' s (min stop (s + step) - s))).flatten
        = List.range' cur (stop - cur)
  | 0, cur, hf => by
      have h0 : stop - cur = 0 := Nat.le_zero.mp hf
      have hcs : ¬ cur < stop := by omega
      simp [pyRangeGo, h0]
  | fuel + 1, cur, hf => by
      by_cases hcs : cur < stop
      · have hrec := pyRangeGo_partition stop step hs fuel (cur + step) (by omega)
        rw [pyRangeGo]
        simp only [hcs, if_pos, List.map_cons, List.flatten_cons, hrec]
        rcases Nat.le_total (cur + step) stop with hle | hle
        · have h1 : min stop (cur + step) = cur + step := Nat.min_eq_right hle
          have h2 : stop - cur = step + (stop - (cur + step)) := by omega
          rw [h1, h2, range'_split]
          have h3 : cur + step - cur = step := by omega
          rw [h3]
        · have h1 : min stop (cur + step) = stop := Nat.min_eq_left hle
          have h2 : stop - (cur + step) = 0 := by omega
          rw [h1, h2] at *
          simp_all [List.range']
      · have h0 : stop - cur = 0 := by omega
        simp [pyRangeGo, hcs, h0]

/-- C8 (confirmed): for every `totalCount` and positive `batchSize`, the
loop's windows `(start, min(count, start+batch_size))` partition
`[0, totalCount)` (contiguous, in order, final window clipped), and when
every fetch succeeds the batch phase finishes without error, writing each
window's response verbatim to the output, one write per window, in window
order, with the fetch calls grouped window after window (strictly
sequential, no interleaving). -/
theorem C8_window_partition_sequential (count bsize : Nat) (data : Nat → String)
    (hb : 1 ≤ bsize) :
    ((windowsOf count bsize).map (fun w => List.range' w.1 (w.2 - w.1))).flatten
      = List.range count ∧
    (batchPhase globalNames (fun s _ => .ok (data s)) count bsize).err = none ∧
    (batchPhase globalNames (fun s _ => .ok (data s)) count bsize).writes
      = (pyRange count bsize).map data ∧
    (batchPhase globalNames (fun s _ => .ok (data s)) count bsize).calls
      = ((pyRange count bsize).map (fun s => [(s, 1), (s, 2), (s, 3)])).flatten := by
  refine ⟨?_, ?_, ?_, ?_⟩
  · have h := pyRangeGo_partition count bsize hb count 0 (by omega)
    rw [List.range_eq_range']
    simpa [windowsOf, pyRange, List.map_map, Function.comp] using h
  · rw [batchPhase, batchLoop_all_ok]
  · rw [batchPhase, batchLoop_all_ok]
  · rw [batchPhase, batchLoop_all_ok]

/-- Witness for C8 at `count = 5`, `batch_size = 2`: windows
`[0,2) [2,4) [4,5)` and writes `["0", "2", "4"]`. -/
theorem C8_window_partition_sequential_witness :
    ((windowsOf 5 2).map (fun w => List.range' w.1 (w.2 - w.1))).flatten
      = List.range 5 ∧
    (batchPhase globalNames (fun s _ => .ok (toString s)) 5 2).err = none ∧
    (batchPhase globalNames (fun s _ => .ok (toString s)) 5 2).writes
      = (pyRange 5 2).map (fun s => toString s) ∧
    (batchPhase globalNames (fun s _ => .ok (toString s)) 5 2).calls
      = ((pyRange 5 2).map (fun s => [(s, 1), (s, 2), (s, 3)])).flatten :=
  C8_window_partition_sequential 5 2 (fun s => toString s) (by decide)

/-! ## Lemmas for the idempotence analysis of the clean-up transform -/

/-- A properly terminated line: some newline-free content followed by one
newline character. -/
def IsNlLine (l : List Char) : Prop := ∃ m, l = m ++ ['\n'] ∧ '\n' ∉ m

/-- Splitting a stream that starts with a full line peels that line off. -/
theorem splitLinesGo_line : ∀ (m : List Char), '\n' ∉ m → ∀ (t acc : List Char),
    splitLinesGo (m ++ '\n' :: t) acc = (acc.reverse ++ (m ++ ['\n'])) :: splitLinesGo t []
  | [], _, t, acc => by simp [splitLinesGo]
  | c :: m, hm, t, acc => by
      have hc : ¬ (c = '\n') := fun h => hm (by simp [h])
      have hm' : '\n' ∉ m := fun h => hm (List.mem_cons_of_mem c h)
      have ih := splitLinesGo_line m hm' t (c :: acc)
      simp only [List.cons_append, splitLinesGo, if_neg hc, List.append_eq]
      rw [ih]
      simp

/-- Splitting the concatenation of properly terminated lines recovers
exactly those lines. -/
theorem splitLines_flatten : ∀ (ls : List (List Char)), (∀ l ∈ ls, IsNlLine l) →
    splitLines ls.flatten = ls
  | [], _ => rfl
  | l :: ls, h => by
      obtain ⟨m, hl, hm⟩ := h l (List.mem_cons_self l ls)
      have ih := splitLines_flatten ls (fun x hx => h x (List.mem_cons_of_mem l hx))
      rw [List.flatten_cons, hl, List.append_assoc]
      have hsing : (['\n'] ++ ls.flatten) = '\n' :: ls.flatten := rfl
      rw [hsing]
      unfold splitLines
      rw [splitLinesGo_line m hm]
      unfold splitLines at ih
      rw [ih]
      simp [hl]

/-- Every line produced by the splitter has its newline (if any) only in
final position. -/
theorem splitLinesGo_shape : ∀ (s acc : List Char), '\n' ∉ acc →
    ∀ l ∈ splitLinesGo s acc, '\n' ∉ l.dropLast
  | [], acc, hacc => by
      intro l hl
      by_cases h : acc.isEmpty
      · simp [splitLinesGo, h] at hl
      · simp [splitLinesGo, h] at hl
        subst hl
        intro hmem
        exact hacc (by simpa using (List.dropLast_sublist acc.reverse).mem hmem)
  | c :: cs, acc, hacc => by
      intro l hl
      by_cases hc : c = '\n'
      · subst hc
        simp [splitLinesGo] at hl
        rcases hl with hl | hl
        · subst hl
          rw [List.dropLast_concat]
          intro hmem
          exact hacc (by simpa using hmem)
        · exact splitLinesGo_shape cs [] (by simp) l hl
      · simp [splitLinesGo, hc] at hl
        refine splitLinesGo_shape cs (c :: acc) ?_ l hl
        intro hmem
        rcases List.mem_cons.mp hmem with h | h
        · exact hc h.symm
        · exact hacc h

/-- A splitter line that ends in a newline is a properly terminated line. -/
theorem splitLines_isNlLine (s l : List Char) (hl : l ∈ splitLines s)
    (hend : l.getLast? = some '\n') : IsNlLine l := by
  have hshape : '\n' ∉ l.dropLast := splitLinesGo_shape s [] (by simp) l hl
  have hne : l ≠ [] := by
    intro h
    rw [h] at hend
    simp at hend
  refine ⟨l.dropLast, ?_, hshape⟩
  have hlast : l.getLast hne = '\n' := by
    have := List.getLast?_eq_getLast l hne
    rw [hend] at this
    exact (Option.some_inj.mp this).symm
  have hdl := List.dropLast_append_getLast hne
  rw [hlast] at hdl
  exact hdl.symm

/-- Filtering twice with the same predicate filters once. -/
theorem filter_keep_idem (p : List Char → Bool) (ls : List (List Char)) :
    (ls.filter p).filter p = ls.filter p := by
  rw [List.filter_filter]
  simp only [Bool.and_self]

/-- C7 (counterexample): the clean-up transform is not idempotent on every
raw stream.  On the empty stream the first pass emits just the closing
root tag; that single line sits among the first ten lines of the second
pass, is copied verbatim, and a second closing tag is appended, so the
second pass output differs byte-wise from the first. -/
theorem C7_counterexample :
    normalizeRaw [] = closeTag ∧
    normalizeRaw closeTag = closeTag ++ closeTag ∧
    ((normalizeRaw (normalizeRaw []) == normalizeRaw []) = false) := by
  decide

/-- C7 (amended): the transform is idempotent on every raw stream with at
least ten lines, each terminated by a newline — in particular on every
stream the batch phase actually produces (multi-line XML prologue and
newline-terminated provenance comment).  On shorter or unterminated
streams a second pass appends a duplicate closing tag or merges the last
line with the appended tag. -/
theorem C7_idempotent_amended (s : List Char)
    (hlen : 10 ≤ (splitLines s).length)
    (hnl : ∀ l ∈ splitLines s, l.getLast? = some '\n') :
    normalizeRaw (normalizeRaw s) = normalizeRaw s := by
  have hIsLine : ∀ l ∈ splitLines s, IsNlLine l :=
    fun l hl => splitLines_isNlLine s l hl (hnl l hl)
  have hCl : IsNlLine closeTag := ⟨"</PubmedArticleSet>".toList, by decide, by decide⟩
  set A := (splitLines s).take 10 with hA
  set B := ((splitLines s).drop 10).filter (fun l => !startsProblem l) with hB
  have hout : normalizeRaw s = (A ++ (B ++ [closeTag])).flatten := by
    rw [normalizeRaw_eq]
    simp [List.flatten_append]
  have hsplit : splitLines (normalizeRaw s) = A ++ (B ++ [closeTag]) := by
    rw [hout]
    apply splitLines_flatten
    intro l hl
    rcases List.mem_append.mp hl with h1 | h1
    · exact hIsLine l (List.take_subset 10 (splitLines s) h1)
    · rcases List.mem_append.mp h1 with h2 | h2
      · exact hIsLine l
          (List.drop_subset 10 (splitLines s) (List.filter_subset' _ h2))
      · rw [List.mem_singleton.mp h2]
        exact hCl
  have hlen10 : A.length = 10 := by
    rw [hA, List.length_take]
    omega
  rw [normalizeRaw_eq (normalizeRaw s), hsplit, ← hlen10, List.take_left, List.drop_left,
    List.filter_append, filter_keep_idem]
  have hclf : ([closeTag].filter (fun l => !startsProblem l)) = [] := by decide
  rw [hclf, List.append_nil, hout, List.flatten_append, List.flatten_append,
    List.flatten_cons]
  simp

/-- The ten-line, newline-terminated stream used to witness the amended
C7. -/
def tenLines : List Char := (List.replicate 10 ['a', '\n']).flatten

/-- Witness for the amended C7 on a concrete ten-line stream. -/
theorem C7_idempotent_amended_witness :
    normalizeRaw (normalizeRaw tenLines) = normalizeRaw tenLines :=
  C7_idempotent_amended tenLines (by decide) (by decide)

end Pubmatch
